import Mathlib

set_option maxRecDepth 100000

/-!
Verification of the submission script `src/submit_application.py`.

The script builds a JSON payload, signs it with HMAC-SHA256, POSTs it to a
fixed endpoint and maps the outcome to a process exit code.  This file embeds
the script shallowly in Lean: bytes are `List Nat` (each element `< 256`),
the clock is an explicit `now : String` parameter, the network is an oracle
`HttpRequest → HttpOutcome`, and the standard library hash primitives
(`hashlib.sha256`, `hmac`) are embedded from their public definitions
(FIPS 180-4 / RFC 2104), validated below against published test vectors.

A central fact about the source: in `create_payload` (lines 24-31) the dict
values for `email` and `name` are the bare tokens `greencode4523@gmail.com`
and `Steven Lee` -- not string literals.  `Steven Lee` (two adjacent
identifiers) is not a Python expression at all, so the function body is
ill-formed and can never be evaluated; the `email` expression parses (as a
`@` binary operation) but every name in it is unbound.  We model this
faithfully with a small expression grammar, tokenizer-level value lists taken
verbatim from the source, a parser, and an evaluator.  CPython compiles the
whole script before executing any of it, so the syntax error aborts every
invocation before `main()` runs: the run model below performs module
compilation first, and only a compiled module would reach `main()`.
-/

/-! ## Bytes and UTF-8 -/

/-- UTF-8 encoding of a single unicode scalar value (code point), as bytes. -/
def utf8Char (n : Nat) : List Nat :=
  if n < 128 then [n]
  else if n < 2048 then [192 + n / 64, 128 + n % 64]
  else if n < 65536 then [224 + n / 4096, 128 + n / 64 % 64, 128 + n % 64]
  else [240 + n / 262144, 128 + n / 4096 % 64, 128 + n / 64 % 64, 128 + n % 64]

/-- `s.encode("utf-8")`: UTF-8 bytes of a string. -/
def utf8Encode (s : String) : List Nat :=
  (s.data.map (fun c => utf8Char c.toNat)).flatten

/-! ## SHA-256 (FIPS 180-4), embedding `hashlib.sha256` -/

/-- Truncation to a 32-bit word. -/
def w32 (n : Nat) : Nat := n % 4294967296

/-- Right rotation of a 32-bit word. -/
def rotr (n x : Nat) : Nat := w32 ((w32 x >>> n) ||| (w32 x <<< (32 - n)))

def shaCh (x y z : Nat) : Nat := (x &&& y) ^^^ ((x ^^^ 4294967295) &&& z)

def shaMaj (x y z : Nat) : Nat := (x &&& y) ^^^ (x &&& z) ^^^ (y &&& z)

def bigSigma0 (x : Nat) : Nat := rotr 2 x ^^^ rotr 13 x ^^^ rotr 22 x

def bigSigma1 (x : Nat) : Nat := rotr 6 x ^^^ rotr 11 x ^^^ rotr 25 x

def smallSigma0 (x : Nat) : Nat := rotr 7 x ^^^ rotr 18 x ^^^ (w32 x >>> 3)

def smallSigma1 (x : Nat) : Nat := rotr 17 x ^^^ rotr 19 x ^^^ (w32 x >>> 10)

/-- The 64 SHA-256 round constants (FIPS 180-4 section 4.2.2, here written
in decimal). -/
def K256 : List Nat :=
  [1116352408, 1899447441, 3049323471, 3921009573,
   961987163, 1508970993, 2453635748, 2870763221,
   3624381080, 310598401, 607225278, 1426881987,
   1925078388, 2162078206, 2614888103, 3248222580,
   3835390401, 4022224774, 264347078, 604807628,
   770255983, 1249150122, 1555081692, 1996064986,
   2554220882, 2821834349, 2952996808, 3210313671,
   3336571891, 3584528711, 113926993, 338241895,
   666307205, 773529912, 1294757372, 1396182291,
   1695183700, 1986661051, 2177026350, 2456956037,
   2730485921, 2820302411, 3259730800, 3345764771,
   3516065817, 3600352804, 4094571909, 275423344,
   430227734, 506948616, 659060556, 883997877,
   958139571, 1322822218, 1537002063, 1747873779,
   1955562222, 2024104815, 2227730452, 2361852424,
   2428436474, 2756734187, 3204031479, 3329325298]

/-- The eight-word SHA-256 hash state. -/
structure H8 where
  a : Nat
  b : Nat
  c : Nat
  d : Nat
  e : Nat
  f : Nat
  g : Nat
  h : Nat

/-- Initial SHA-256 hash value (FIPS 180-4 section 5.3.3, in decimal). -/
def initH : H8 :=
  ⟨1779033703, 3144134277, 1013904242, 2773480762,
   1359893119, 2600822924, 528734635, 1541459225⟩

/-- Big-endian grouping of bytes into 32-bit words. -/
def toWords : List Nat → List Nat
  | b0 :: b1 :: b2 :: b3 :: rest => (b0 * 16777216 + b1 * 65536 + b2 * 256 + b3) :: toWords rest
  | _ => []

/-- One step of the message-schedule extension; `rev` holds the schedule so
far, most recent word first (so `rev.getD 1` is `W[t-2]`, `rev.getD 6` is
`W[t-7]`, `rev.getD 14` is `W[t-15]`, `rev.getD 15` is `W[t-16]`). -/
def stepSchedule (rev : List Nat) : Nat :=
  w32 (smallSigma1 (rev.getD 1 0) + rev.getD 6 0 + smallSigma0 (rev.getD 14 0) + rev.getD 15 0)

/-- Extend the reversed message schedule by `k` words. -/
def buildSchedule (rev : List Nat) : Nat → List Nat
  | 0 => rev
  | k + 1 => buildSchedule (stepSchedule rev :: rev) k

/-- The full 64-word message schedule of one 64-byte block. -/
def schedule (block : List Nat) : List Nat :=
  (buildSchedule (toWords block).reverse 48).reverse

/-- One SHA-256 round on the working variables. -/
def round256 (st : H8) (k w : Nat) : H8 :=
  let t1 := w32 (st.h + bigSigma1 st.e + shaCh st.e st.f st.g + k + w)
  let t2 := w32 (bigSigma0 st.a + shaMaj st.a st.b st.c)
  ⟨w32 (t1 + t2), st.a, st.b, st.c, w32 (st.d + t1), st.e, st.f, st.g⟩

/-- SHA-256 compression of one 64-byte block into the running state. -/
def compressBlock (st : H8) (block : List Nat) : H8 :=
  let ws := schedule block
  let fin := (K256.zip ws).foldl (fun s kw => round256 s kw.1 kw.2) st
  ⟨w32 (st.a + fin.a), w32 (st.b + fin.b), w32 (st.c + fin.c), w32 (st.d + fin.d),
   w32 (st.e + fin.e), w32 (st.f + fin.f), w32 (st.g + fin.g), w32 (st.h + fin.h)⟩

/-- Big-endian eight-byte encoding of the message bit length. -/
def lenBytes (n : Nat) : List Nat :=
  [n >>> 56 % 256, n >>> 48 % 256, n >>> 40 % 256, n >>> 32 % 256,
   n >>> 24 % 256, n >>> 16 % 256, n >>> 8 % 256, n % 256]

/-- SHA-256 padding: append `0x80`, zeros to 56 mod 64, then the bit length. -/
def padMessage (msg : List Nat) : List Nat :=
  let L := msg.length
  msg ++ [128] ++ List.replicate ((64 + 56 - ((L + 1) % 64)) % 64) 0 ++ lenBytes (8 * L)

/-- Split a byte list into 64-byte chunks (structural recursion on a fuel
bound that the wrapper instantiates with the list length). -/
def chunks64Aux : Nat → List Nat → List (List Nat)
  | 0, _ => []
  | _, [] => []
  | fuel + 1, x :: xs => (x :: xs).take 64 :: chunks64Aux fuel ((x :: xs).drop 64)

/-- Split a byte list into 64-byte chunks. -/
def chunks64 (l : List Nat) : List (List Nat) :=
  chunks64Aux l.length l

/-- Big-endian bytes of one 32-bit word. -/
def wordBytes (w : Nat) : List Nat :=
  [w >>> 24 % 256, w >>> 16 % 256, w >>> 8 % 256, w % 256]

/-- SHA-256 of a byte sequence (the digest, as 32 bytes). -/
def sha256 (msg : List Nat) : List Nat :=
  let fin := (chunks64 (padMessage msg)).foldl compressBlock initH
  wordBytes fin.a ++ wordBytes fin.b ++ wordBytes fin.c ++ wordBytes fin.d ++
  wordBytes fin.e ++ wordBytes fin.f ++ wordBytes fin.g ++ wordBytes fin.h

/-! ## HMAC (RFC 2104), embedding Python `hmac.new(key, msg, hashlib.sha256)` -/

/-- HMAC-SHA256 of `msg` under `key` (both byte sequences). -/
def hmacSha256 (key msg : List Nat) : List Nat :=
  let k0 := if key.length > 64 then sha256 key else key
  let k1 := k0 ++ List.replicate (64 - k0.length) 0
  sha256 ((k1.map (fun b => b ^^^ 92)) ++ sha256 ((k1.map (fun b => b ^^^ 54)) ++ msg))

/-! ## Lowercase hex digests (`.hexdigest()`) -/

/-- The lowercase hex digit for `n < 16`. -/
def hexDigitChar (n : Nat) : Char :=
  if n < 10 then Char.ofNat (48 + n) else Char.ofNat (87 + n)

/-- Lowercase hex rendering of a byte sequence, two digits per byte. -/
def hexLower : List Nat → List Char
  | [] => []
  | b :: bs => hexDigitChar (b / 16) :: hexDigitChar (b % 16) :: hexLower bs

/-! ## `calculate_signature` (source lines 36-43) -/

/-- Embedding of `calculate_signature(json_body, secret)`: HMAC-SHA256 over
the body bytes with the UTF-8 encoded secret as key, hex digest prefixed
with `sha256=`. -/
def calculate_signature (json_body : List Nat) (secret : String) : String :=
  "sha256=" ++ String.mk (hexLower (hmacSha256 (utf8Encode secret) json_body))

/-- FIPS 180-4 test vector: SHA-256 of `"abc"`. -/
theorem sha256_abc_vector :
    String.mk (hexLower (sha256 (utf8Encode "abc"))) =
      "ba7816bf8f01cfea414140de5dae2223b00361a396177a9cb410ff61f20015ad" := by
  decide

/-- RFC 4231 test case 2: HMAC-SHA256 with key `"Jefe"`. -/
theorem hmac_jefe_vector :
    String.mk (hexLower (hmacSha256 (utf8Encode "Jefe")
        (utf8Encode "what do ya want for nothing?"))) =
      "5bdcc146bf60754e6a042426089575c75a003f089d2739839dec58b964ec3843" := by
  decide

/-! ## A small model of Python expressions

`create_payload` (source lines 22-33) builds a dict literal.  Four of its
values are plain parameter references and one is the call
`get_iso_timestamp()`, but the `email` value is the bare token sequence
`greencode4523@gmail.com` and the `name` value is the bare token sequence
`Steven Lee`.  We model exactly the expression forms that occur there:
identifiers, attribute access, zero-argument calls, and the `@` (matrix
multiplication) binary operator. -/

inductive PyTok where
  | ident (s : String)
  | atSign
  | dot
  | lparen
  | rparen
deriving DecidableEq

inductive PyExpr where
  | name (s : String)
  | attr (e : PyExpr) (f : String)
  | callNoArg (e : PyExpr)
  | matmul (a b : PyExpr)
deriving DecidableEq

/-- Parse the postfix trailers (`.field`, `()`) after a primary expression. -/
def parseTrailers : PyExpr → List PyTok → PyExpr × List PyTok
  | e, PyTok.dot :: PyTok.ident f :: rest => parseTrailers (PyExpr.attr e f) rest
  | e, PyTok.lparen :: PyTok.rparen :: rest => parseTrailers (PyExpr.callNoArg e) rest
  | e, rest => (e, rest)

/-- Parse one atom: an identifier followed by its trailers. -/
def parseAtom : List PyTok → Option (PyExpr × List PyTok)
  | PyTok.ident s :: rest => some (parseTrailers (PyExpr.name s) rest)
  | _ => none

/-- Parse a chain of `@` operators after a first operand (fuel-bounded). -/
def parseMatTail (fuel : Nat) (e : PyExpr) (toks : List PyTok) :
    Option (PyExpr × List PyTok) :=
  match fuel, toks with
  | fuel + 1, PyTok.atSign :: rest =>
    match parseAtom rest with
    | some (e2, rest2) => parseMatTail fuel (PyExpr.matmul e e2) rest2
    | none => none
  | _, rest => some (e, rest)

/-- Parse a complete expression; every token must be consumed, otherwise the
token sequence is not a Python expression (a syntax error). -/
def parseExpr (toks : List PyTok) : Option PyExpr :=
  match parseAtom toks with
  | some (e, rest) =>
    match parseMatTail toks.length e rest with
    | some (e2, []) => some e2
    | _ => none
  | none => none

/-- Failures a CPython evaluation of these expressions can produce. -/
inductive PyErr where
  | parseFailure (key : String)
  | unboundName (n : String)
  | typeFault (msg : String)
  | attrFault (f : String)
deriving DecidableEq

/-- Values that occur in `create_payload`: strings, and the function object
`get_iso_timestamp` (whose call we model as returning the injected clock). -/
inductive PyVal where
  | str (s : String)
  | fnTimestamp
deriving DecidableEq

/-- Left-to-right evaluation of a parsed expression in a name environment. -/
def evalExpr (now : String) (env : String → Option PyVal) :
    PyExpr → Except PyErr PyVal
  | PyExpr.name s =>
    match env s with
    | some v => Except.ok v
    | none => Except.error (PyErr.unboundName s)
  | PyExpr.attr e f => do
    let _ ← evalExpr now env e
    Except.error (PyErr.attrFault f)
  | PyExpr.callNoArg e => do
    let v ← evalExpr now env e
    match v with
    | PyVal.fnTimestamp => Except.ok (PyVal.str now)
    | _ => Except.error (PyErr.typeFault "object is not callable")
  | PyExpr.matmul a b => do
    let _ ← evalExpr now env a
    let _ ← evalExpr now env b
    Except.error (PyErr.typeFault "unsupported operand types for matmul")

/-! ## `json.dumps(..., separators=(",", ":"), sort_keys=True, ensure_ascii=False)` -/

/-- JSON escaping of one character with `ensure_ascii=False`: only the quote,
the backslash and control characters are escaped; everything else, non-ASCII
included, is preserved verbatim. -/
def jsonEscapeChar (c : Char) : List Char :=
  if c = '"' then ['\\', '"']
  else if c = '\\' then ['\\', '\\']
  else if c = '\n' then ['\\', 'n']
  else if c = '\t' then ['\\', 't']
  else if c = '\r' then ['\\', 'r']
  else if c = Char.ofNat 8 then ['\\', 'b']
  else if c = Char.ofNat 12 then ['\\', 'f']
  else if c.toNat < 32 then '\\' :: 'u' :: '0' :: '0' :: hexLower [c.toNat]
  else [c]

/-- A JSON string literal for `s`. -/
def jsonQuote (s : String) : String :=
  String.mk ('"' :: s.data.foldr (fun c acc => jsonEscapeChar c ++ acc) ['"'])

/-- Join strings with a separator (Python `sep.join(...)`). -/
def intercalateStr (sep : String) : List String → String
  | [] => ""
  | [x] => x
  | x :: y :: xs => x ++ sep ++ intercalateStr sep (y :: xs)

/-- Insert a pair into a key-sorted association list. -/
def insertByKey (p : String × String) : List (String × String) → List (String × String)
  | [] => [p]
  | q :: qs => if q.1 < p.1 then q :: insertByKey p qs else p :: q :: qs

/-- Sort an association list by key, ascending by codepoint. -/
def sortByKey : List (String × String) → List (String × String)
  | [] => []
  | p :: ps => insertByKey p (sortByKey ps)

/-- Compact JSON serialization of a flat string-valued mapping with sorted
keys: no space after `:` or `,`, non-ASCII preserved. -/
def dumpsSortedCompact (pairs : List (String × String)) : String :=
  "\x7b" ++
    intercalateStr ","
      ((sortByKey pairs).map (fun kv => jsonQuote kv.1 ++ ":" ++ jsonQuote kv.2)) ++
  "\x7d"

/-! ## `create_payload` (source lines 22-33) -/

/-- The token sequence bound to the `email` key on source line 26:
`greencode4523@gmail.com`, with no quotation marks. -/
def emailValueTokens : List PyTok :=
  [PyTok.ident "greencode4523", PyTok.atSign, PyTok.ident "gmail",
   PyTok.dot, PyTok.ident "com"]

/-- The token sequence bound to the `name` key on source line 27:
`Steven Lee`, with no quotation marks. -/
def nameValueTokens : List PyTok :=
  [PyTok.ident "Steven", PyTok.ident "Lee"]

/-- The dict entries of `create_payload`, in source order, each value given
as the token sequence written in the source. -/
def payloadEntries : List (String × List PyTok) :=
  [("action_run_link", [PyTok.ident "action_run_link"]),
   ("email", emailValueTokens),
   ("name", nameValueTokens),
   ("repository_link", [PyTok.ident "repository_link"]),
   ("resume_link", [PyTok.ident "resume_link"]),
   ("timestamp", [PyTok.ident "get_iso_timestamp", PyTok.lparen, PyTok.rparen])]

/-- The names in scope inside `create_payload`: its five parameters, and the
module-level function `get_iso_timestamp`. -/
def paramEnv (name email resume_link repository_link action_run_link : String) :
    String → Option PyVal := fun s =>
  if s = "name" then some (PyVal.str name)
  else if s = "email" then some (PyVal.str email)
  else if s = "resume_link" then some (PyVal.str resume_link)
  else if s = "repository_link" then some (PyVal.str repository_link)
  else if s = "action_run_link" then some (PyVal.str action_run_link)
  else if s = "get_iso_timestamp" then some PyVal.fnTimestamp
  else none

/-- Compile the dict entries: every value must parse as an expression, else
defining the function is itself a syntax error. -/
def compileEntries (l : List (String × List PyTok)) :
    Except PyErr (List (String × PyExpr)) :=
  l.mapM (fun ke =>
    match parseExpr ke.2 with
    | some e => Except.ok (ke.1, e)
    | none => Except.error (PyErr.parseFailure ke.1))

/-- Embedding of `create_payload(name, email, resume_link, repository_link,
action_run_link)`; `now` injects the clock read by `get_iso_timestamp()`.
The dict values are compiled from their source token sequences, evaluated in
the function's scope, serialized as compact sorted-key JSON and UTF-8
encoded.  Because the `name` value tokens do not parse, the result is an
error for every input. -/
def create_payload (name email resume_link repository_link action_run_link
    now : String) : Except PyErr (List Nat) := do
  let compiled ← compileEntries payloadEntries
  let env := paramEnv name email resume_link repository_link action_run_link
  let vals ← compiled.mapM (fun ke => do
    let v ← evalExpr now env ke.2
    match v with
    | PyVal.str s => Except.ok (ke.1, s)
    | _ => Except.error (PyErr.typeFault "object is not JSON serializable"))
  Except.ok (utf8Encode (dumpsSortedCompact vals))

/-! ## The process model

`submit_application` (lines 46-82) and `main` (lines 85-115) are embedded as
functions from an environment, an injected clock, and a network oracle to an
observable run outcome: exit code, standard output lines, error-stream lines
and the list of HTTP requests actually issued.  One invocation of the script
is CPython compiling the whole module and, only if that succeeds, executing
`sys.exit(main())` (line 119), which maps `main`'s return value to the
process exit code.  An error CPython cannot recover from -- the module-level
syntax error included -- makes it print a traceback to the error stream and
exit with code 1, which the model renders as a single traceback line.
Because the module never compiles, everything after compilation is dead
code in the model exactly as lines 17-119 are dead code in the script; the
functions are still embedded from their own text, each as written. -/

/-- Scalar JSON values, enough for the flat response objects the endpoint is
specified to return. -/
inductive JScalar where
  | jnull
  | jbool (b : Bool)
  | jstr (s : String)
  | jnum (n : Int)
deriving DecidableEq

/-- A parsed flat JSON object (what `json.loads` yields for the responses
described in the spec). -/
abbrev ResponseData := List (String × JScalar)

/-- Python truthiness of a scalar. -/
def pyTruthy : JScalar → Bool
  | JScalar.jnull => false
  | JScalar.jbool b => b
  | JScalar.jstr s => !(s == "")
  | JScalar.jnum n => !(n == 0)

/-- Python truthiness of `dict.get(key)` (absent means `None`, falsy). -/
def pyTruthyOptScalar : Option JScalar → Bool
  | none => false
  | some v => pyTruthy v

/-- `str()` of a scalar, as Python prints it. -/
def pyStrScalar : JScalar → String
  | JScalar.jnull => "None"
  | JScalar.jbool true => "True"
  | JScalar.jbool false => "False"
  | JScalar.jstr s => s
  | JScalar.jnum n => toString n

/-- `repr()` of a scalar, as it appears inside a printed dict. -/
def pyReprScalar : JScalar → String
  | JScalar.jnull => "None"
  | JScalar.jbool true => "True"
  | JScalar.jbool false => "False"
  | JScalar.jstr s => "\x27" ++ s ++ "\x27"
  | JScalar.jnum n => toString n

/-- `repr()` of a flat dict. -/
def pyReprData (d : ResponseData) : String :=
  "\x7b" ++
    intercalateStr ", "
      (d.map (fun kv => "\x27" ++ kv.1 ++ "\x27: " ++ pyReprScalar kv.2)) ++
  "\x7d"

/-- `dict.get(key)` on a flat parsed object. -/
def jGet (d : ResponseData) (k : String) : Option JScalar :=
  (d.find? (fun kv => kv.1 == k)).map (fun kv => kv.2)

/-- `str(dict.get(key, default))`. -/
def jGetStrD (d : ResponseData) (k dflt : String) : String :=
  match jGet d k with
  | some v => pyStrScalar v
  | none => dflt

/-- One HTTP POST as the script issues it (line 57-59). -/
structure HttpRequest where
  url : String
  body : List Nat
  contentType : String
  signature : String
deriving DecidableEq

/-- What `urlopen` resolves to: a 2xx response whose body has already been
read and passed through `json.loads` (`none` models a body that is not valid
JSON), an `HTTPError` with status code and optional error body (`none`
models `e.fp` being absent), or a `URLError` transport failure. -/
inductive HttpOutcome where
  | ok (status : Nat) (body : Option ResponseData)
  | httpFailure (code : Nat) (body : Option String)
  | transportFailure (reason : String)

/-- The observable outcome of one process invocation. -/
structure RunResult where
  exitCode : Nat
  stdout : List String
  stderr : List String
  requests : List HttpRequest
deriving DecidableEq

/-- The traceback line CPython prints when it aborts on an error nothing
catches -- for this script, the module-level syntax error. -/
def pyTraceback : PyErr → String
  | PyErr.parseFailure _ => "Traceback (most recent call last): SyntaxError: invalid syntax"
  | PyErr.unboundName n => "Traceback (most recent call last): NameError: name " ++ n ++ " is not defined"
  | PyErr.typeFault m => "Traceback (most recent call last): TypeError: " ++ m
  | PyErr.attrFault f => "Traceback (most recent call last): AttributeError: " ++ f

/-- The fixed endpoint (line 48). -/
def submissionUrl : String := "https://b12.io/apply/submission"

/-- Embedding of `submit_application(...)` (lines 46-82), from its own
text (the actual module never compiles, so this function is never reached;
see `mainRun`).  The `create_payload` call (line 51) sits outside the
`try` block, so its failure would escape as an uncaught exception;
otherwise the signature is computed, exactly one request is issued, and
the response is classified as in the source. -/
def submit_application (name email resume_link repository_link action_run_link
    signing_secret now : String) (oracle : HttpRequest → HttpOutcome) : RunResult :=
  match create_payload name email resume_link repository_link action_run_link now with
  | Except.error e =>
    { exitCode := 1, stdout := [], stderr := [pyTraceback e], requests := [] }
  | Except.ok json_body =>
    let signature := calculate_signature json_body signing_secret
    let req : HttpRequest :=
      { url := submissionUrl, body := json_body,
        contentType := "application/json; charset=utf-8", signature := signature }
    match oracle req with
    | HttpOutcome.ok _status bodyData =>
      match bodyData with
      | none =>
        { exitCode := 1, stdout := [], stderr := ["JSON Decode Error"], requests := [req] }
      | some data =>
        if pyTruthyOptScalar (jGet data "success") then
          { exitCode := 0, stdout := [jGetStrD data "receipt" ""], stderr := [],
            requests := [req] }
        else
          { exitCode := 1, stdout := [],
            stderr := ["Error: Submission was not successful. Response: " ++ pyReprData data],
            requests := [req] }
    | HttpOutcome.httpFailure code body =>
      { exitCode := 1, stdout := [],
        stderr := ["HTTP Error " ++ toString code ++ ": " ++ body.getD "No error details"],
        requests := [req] }
    | HttpOutcome.transportFailure reason =>
      { exitCode := 1, stdout := [], stderr := ["URL Error: " ++ reason], requests := [req] }

/-! ## `main` (lines 85-115) -/

/-- A process environment: variable-name/value bindings. -/
abbrev Env := List (String × String)

/-- `os.environ.get(k)`. -/
def envGet (env : Env) (k : String) : Option String :=
  (env.find? (fun kv => kv.1 == k)).map (fun kv => kv.2)

/-- Python truthiness of an optional string (`None` and `""` are falsy). -/
def pyTruthyOptStr : Option String → Bool
  | none => false
  | some s => !(s == "")

/-- The `required_fields` dict keys of line 96-102 paired with the
environment variable each is read from (lines 88-92). -/
def requiredPairs : List (String × String) :=
  [("name", "APPLICATION_NAME"),
   ("email", "APPLICATION_EMAIL"),
   ("resume_link", "APPLICATION_RESUME_LINK"),
   ("repository_link", "APPLICATION_REPOSITORY_LINK"),
   ("action_run_link", "APPLICATION_ACTION_RUN_LINK")]

/-- The `required_fields` dict (lines 96-102), in insertion order. -/
def required_fields (env : Env) : List (String × Option String) :=
  requiredPairs.map (fun kv => (kv.1, envGet env kv.2))

/-- `missing_fields` (line 104): keys whose value is falsy, in dict order. -/
def missing_fields (env : Env) : List String :=
  ((required_fields env).filter (fun kv => !pyTruthyOptStr kv.2)).map (fun kv => kv.1)

/-- Line 93: the signing secret, with the documented placeholder default. -/
def selectSigningSecret (env : Env) : String :=
  (envGet env "SIGNING_SECRET").getD "hello-there-from-b12"

/-- The reminder block lines 107-112 would print to the error stream; the
first element models the `print` of a string starting with a newline. -/
def requiredReminder : List String :=
  ["\nRequired environment variables:",
   "  APPLICATION_NAME",
   "  APPLICATION_EMAIL",
   "  APPLICATION_RESUME_LINK",
   "  APPLICATION_REPOSITORY_LINK",
   "  APPLICATION_ACTION_RUN_LINK"]

/-- The full error-stream output the missing-variables branch (lines
106-112) would produce. -/
def missingDiag (missing : List String) : List String :=
  ("Error: Missing required environment variables: " ++ intercalateStr ", " missing)
    :: requiredReminder

/-- CPython parses and compiles the entire script before executing any of
it: every statement, including the bodies of functions that are never
called, must be well-formed.  The dict values of `create_payload` are the
only ill-formed construct in the file, so module compilation fails with
the `name` syntax error. -/
def compileModule : Except PyErr Unit :=
  match compileEntries payloadEntries with
  | Except.error e => Except.error e
  | Except.ok _ => Except.ok ()

/-- Embedding of one process invocation of the script.  CPython first
compiles the whole module; when that fails it prints a traceback and exits
with code 1 before `main()` (or anything else) runs, whatever the
environment holds.  Only a compiled module would execute `main()` (lines
85-115) composed with `sys.exit(main())` (line 119): read the environment,
validate the five required fields, and either report the missing ones on
the error stream and exit 1 without any network activity, or hand off to
`submit_application`.  Since `compileModule` fails, the branches after it
are dead code in the model exactly as lines 85-115 are dead code in the
script. -/
def mainRun (env : Env) (now : String) (oracle : HttpRequest → HttpOutcome) : RunResult :=
  match compileModule with
  | Except.error e =>
    { exitCode := 1, stdout := [], stderr := [pyTraceback e], requests := [] }
  | Except.ok _ =>
    if (missing_fields env).isEmpty then
      submit_application
        ((envGet env "APPLICATION_NAME").getD "")
        ((envGet env "APPLICATION_EMAIL").getD "")
        ((envGet env "APPLICATION_RESUME_LINK").getD "")
        ((envGet env "APPLICATION_REPOSITORY_LINK").getD "")
        ((envGet env "APPLICATION_ACTION_RUN_LINK").getD "")
        (selectSigningSecret env) now oracle
    else
      { exitCode := 1, stdout := [], stderr := missingDiag (missing_fields env), requests := [] }

/-! ## Concrete inputs used by the individual results -/

/-- An environment with all five required variables set (and no
`SIGNING_SECRET`). -/
def fullEnv : Env :=
  [("APPLICATION_NAME", "Jane Doe"),
   ("APPLICATION_EMAIL", "jane@example.org"),
   ("APPLICATION_RESUME_LINK", "https://example.org/resume"),
   ("APPLICATION_REPOSITORY_LINK", "https://example.org/repo"),
   ("APPLICATION_ACTION_RUN_LINK", "https://example.org/run")]

/-- `fullEnv` with a `SIGNING_SECRET` binding. -/
def envWithSecret : Env := ("SIGNING_SECRET", "topsecret") :: fullEnv

/-- All required variables but `APPLICATION_EMAIL`, which is absent. -/
def envMissingEmail : Env :=
  [("APPLICATION_NAME", "Jane Doe"),
   ("APPLICATION_RESUME_LINK", "https://example.org/resume"),
   ("APPLICATION_REPOSITORY_LINK", "https://example.org/repo"),
   ("APPLICATION_ACTION_RUN_LINK", "https://example.org/run")]

/-- All required variables set, but `APPLICATION_EMAIL` set to the empty
string. -/
def envEmptyEmail : Env :=
  [("APPLICATION_NAME", "Jane Doe"),
   ("APPLICATION_EMAIL", ""),
   ("APPLICATION_RESUME_LINK", "https://example.org/resume"),
   ("APPLICATION_REPOSITORY_LINK", "https://example.org/repo"),
   ("APPLICATION_ACTION_RUN_LINK", "https://example.org/run")]

/-- A mocked endpoint answering 200 with `{"success": true, "receipt": "R123"}`. -/
def successOracle : HttpRequest → HttpOutcome := fun _ =>
  HttpOutcome.ok 200 (some [("success", JScalar.jbool true), ("receipt", JScalar.jstr "R123")])

/-- A mocked endpoint answering HTTP 500 with body `"server error"`. -/
def error500Oracle : HttpRequest → HttpOutcome := fun _ =>
  HttpOutcome.httpFailure 500 (some "server error")

/-- An endpoint that only reports a transport failure. -/
def nullOracle : HttpRequest → HttpOutcome := fun _ =>
  HttpOutcome.transportFailure "unreachable"

/-! ## Helper lemmas -/

theorem wordBytes_mem_lt {b w : Nat} (h : b ∈ wordBytes w) : b < 256 := by
  simp only [wordBytes, List.mem_cons, List.not_mem_nil, or_false] at h
  rcases h with rfl | rfl | rfl | rfl <;> omega

theorem sha256_length (msg : List Nat) : (sha256 msg).length = 32 := by
  simp [sha256, wordBytes]

theorem sha256_mem_lt (msg : List Nat) : ∀ b ∈ sha256 msg, b < 256 := by
  intro b hb
  simp only [sha256, List.mem_append] at hb
  rcases hb with (((((((h | h) | h) | h) | h) | h) | h) | h) <;> exact wordBytes_mem_lt h

theorem hmacSha256_length (key msg : List Nat) : (hmacSha256 key msg).length = 32 := by
  simp only [hmacSha256]
  exact sha256_length _

theorem hmacSha256_mem_lt {key msg : List Nat} {b : Nat} (h : b ∈ hmacSha256 key msg) :
    b < 256 := by
  simp only [hmacSha256] at h
  exact sha256_mem_lt _ b h

theorem hexLower_length (bs : List Nat) : (hexLower bs).length = 2 * bs.length := by
  induction bs with
  | nil => rfl
  | cons b bs ih => simp only [hexLower, List.length_cons, ih]; omega

theorem hexDigitChar_mem {n : Nat} (h : n < 16) :
    hexDigitChar n ∈ "0123456789abcdef".data := by
  interval_cases n <;> decide

theorem hexLower_alphabet (bs : List Nat) (hb : ∀ b ∈ bs, b < 256) :
    ∀ c ∈ hexLower bs, c ∈ "0123456789abcdef".data := by
  induction bs with
  | nil => intro c hc; simp [hexLower] at hc
  | cons b bs ih =>
    intro c hc
    have hblt : b < 256 := hb b (by simp)
    simp only [hexLower, List.mem_cons] at hc
    rcases hc with rfl | rfl | hc
    · exact hexDigitChar_mem (by omega)
    · exact hexDigitChar_mem (by omega)
    · exact ih (fun x hx => hb x (by simp [hx])) c hc

/-! ## The claims -/

/-- Claim C1.  The spec says `build_payload` returns the UTF-8 bytes of a
compact, key-sorted JSON document.  The code cannot do this for any input:
the `name` dict value on line 27 is the token pair `Steven Lee`, which is
not an expression, so `create_payload` fails rather than return bytes.
Evaluation at a concrete input tuple and timestamp. -/
theorem payload_build_fails_on_concrete_input :
    create_payload "Ada Lovelace" "ada@example.org" "https://example.org/resume"
        "https://example.org/repo" "https://example.org/run" "2024-05-01T12:00:00Z"
      = Except.error (PyErr.parseFailure "name") := rfl

/-- Claim C2.  `calculate_signature` returns `sha256=` followed by the
lowercase hex encoding of the HMAC-SHA256 digest of the body under the
UTF-8 encoded secret: the result decomposes as the prefix plus exactly 64
characters drawn from the lowercase hex alphabet, and (the embedding being
a total Lean function of exactly its two arguments) it is deterministic and
side-effect free.  The last conjunct checks the embedding against the
RFC 4231 HMAC-SHA256 test vector with key `Jefe`. -/
theorem calculate_signature_shape (json_body : List Nat) (secret : String) :
    calculate_signature json_body secret =
      "sha256=" ++ String.mk (hexLower (hmacSha256 (utf8Encode secret) json_body)) ∧
    (String.mk (hexLower (hmacSha256 (utf8Encode secret) json_body))).length = 64 ∧
    (∀ c ∈ hexLower (hmacSha256 (utf8Encode secret) json_body),
      c ∈ "0123456789abcdef".data) ∧
    calculate_signature (utf8Encode "what do ya want for nothing?") "Jefe" =
      "sha256=5bdcc146bf60754e6a042426089575c75a003f089d2739839dec58b964ec3843" := by
  refine ⟨rfl, ?_, ?_, by decide⟩
  · show (hexLower (hmacSha256 (utf8Encode secret) json_body)).length = 64
    rw [hexLower_length, hmacSha256_length]
  · exact hexLower_alphabet _ (fun b hb => hmacSha256_mem_lt hb)

/-- Claim C3.  The round-trip property (parse of `build_payload`'s output
returns the input field values) fails because `create_payload` never
returns any bytes to parse: at a concrete input it produces no `ok`
result. -/
theorem payload_roundtrip_impossible :
    ¬ ∃ bs : List Nat,
        create_payload "Grace Hopper" "grace@example.org" "https://example.org/r"
          "https://example.org/g" "https://example.org/c" "2024-05-01T12:00:00Z"
        = Except.ok bs := by
  rintro ⟨bs, hbs⟩
  have hred : create_payload "Grace Hopper" "grace@example.org" "https://example.org/r"
      "https://example.org/g" "https://example.org/c" "2024-05-01T12:00:00Z"
      = Except.error (PyErr.parseFailure "name") := rfl
  rw [hred] at hbs
  exact Except.noConfusion hbs

/-- Claim C4, counterexample.  The claim asserts the payload's `name` and
`email` fields hold fixed hardcoded string values; but at a concrete input
no payload exists at all, because the embedded identity tokens are not
string literals and the builder fails. -/
theorem payload_fields_not_hardcoded_strings :
    ¬ ∃ bs : List Nat,
        create_payload "Alice Example" "alice@example.org" "https://example.org/r"
          "https://example.org/g" "https://example.org/c" "2024-06-01T00:00:00Z"
        = Except.ok bs := by
  rintro ⟨bs, hbs⟩
  have hred : create_payload "Alice Example" "alice@example.org" "https://example.org/r"
      "https://example.org/g" "https://example.org/c" "2024-06-01T00:00:00Z"
      = Except.error (PyErr.parseFailure "name") := rfl
  rw [hred] at hbs
  exact Except.noConfusion hbs

/-- Claim C4, amended.  The payload builder does ignore its `name` and
`email` parameters: any two calls that differ only in those arguments have
identical results.  But no fixed hardcoded field values are produced;
instead every call fails with the same syntax error, because the embedded
identity expressions are bare tokens, not string literals. -/
theorem create_payload_ignores_name_email :
    (∀ n₁ e₁ n₂ e₂ r g c t : String,
      create_payload n₁ e₁ r g c t = create_payload n₂ e₂ r g c t) ∧
    (∀ n e r g c t : String,
      create_payload n e r g c t = Except.error (PyErr.parseFailure "name")) :=
  ⟨fun _ _ _ _ _ _ _ _ => rfl, fun _ _ _ _ _ _ => rfl⟩

/-- Claim C5.  With all five required variables set and a mocked endpoint
answering 200 `{"success": true, "receipt": "R123"}`, the claim says the
program prints `R123` and exits 0.  The code instead aborts on the
module-level syntax error before `main()` runs: exit code 1, empty
standard output, no request, and only a traceback on the error stream. -/
theorem success_response_path_unreachable :
    (mainRun fullEnv "2024-01-01T00:00:00Z" successOracle).exitCode = 1 ∧
    (mainRun fullEnv "2024-01-01T00:00:00Z" successOracle).stdout = [] ∧
    (mainRun fullEnv "2024-01-01T00:00:00Z" successOracle).requests = [] ∧
    (mainRun fullEnv "2024-01-01T00:00:00Z" successOracle).stderr =
      [pyTraceback (PyErr.parseFailure "name")] :=
  ⟨rfl, rfl, rfl, rfl⟩

/-- Claim C6.  The claim says that with a required variable unset the
program prints the missing-variables diagnostic and the five-name reminder
to the error stream, then exits 1 before any network activity.  Exit code 1
and the absence of network activity do hold, but the diagnostic is never
printed: CPython aborts on the module-level syntax error before `main()`
runs, so with `APPLICATION_EMAIL` absent the error stream carries only the
traceback -- the diagnostic branch of lines 104-113 (which would have
listed `email`) is dead code. -/
theorem missing_env_diagnostic_never_printed :
    missing_fields envMissingEmail = ["email"] ∧
    (mainRun envMissingEmail "2024-01-01T00:00:00Z" nullOracle).exitCode = 1 ∧
    (mainRun envMissingEmail "2024-01-01T00:00:00Z" nullOracle).requests = [] ∧
    (mainRun envMissingEmail "2024-01-01T00:00:00Z" nullOracle).stderr =
      [pyTraceback (PyErr.parseFailure "name")] ∧
    (mainRun envMissingEmail "2024-01-01T00:00:00Z" nullOracle).stderr ≠
      missingDiag (missing_fields envMissingEmail) :=
  ⟨rfl, rfl, rfl, rfl, by decide⟩

/-- Claim C7.  With all variables set and a mocked endpoint answering
HTTP 500 with body `server error`, the claim says the diagnostic carries
the code and the body.  The code never issues the request: it aborts on
the module-level syntax error, and the error stream carries only the
traceback, not the 500 diagnostic. -/
theorem http_error_path_unreachable :
    (mainRun fullEnv "2024-03-03T00:00:00Z" error500Oracle).exitCode = 1 ∧
    (mainRun fullEnv "2024-03-03T00:00:00Z" error500Oracle).requests = [] ∧
    (mainRun fullEnv "2024-03-03T00:00:00Z" error500Oracle).stderr =
      [pyTraceback (PyErr.parseFailure "name")] :=
  ⟨rfl, rfl, rfl⟩

/-- Claim C8.  Line 93 does default the signing secret to the placeholder
`hello-there-from-b12` when `SIGNING_SECRET` is unset, and uses the set
value otherwise; but no signed request is ever sent (the module never
compiles, so nothing is built or signed), and no signature equal to
`sign(payload, placeholder)` is ever transmitted. -/
theorem placeholder_secret_selected_but_never_sent :
    selectSigningSecret fullEnv = "hello-there-from-b12" ∧
    selectSigningSecret envWithSecret = "topsecret" ∧
    (mainRun fullEnv "2024-02-02T00:00:00Z" successOracle).requests = [] ∧
    (mainRun envWithSecret "2024-02-02T00:00:00Z" successOracle).requests = [] :=
  ⟨rfl, rfl, rfl, rfl⟩

/-- Claim C9.  The payload builder is ill-formed: the `name` value token
sequence does not parse as an expression, `create_payload` fails
identically on every input, and consequently every invocation of the
program, over every environment, clock and network oracle, exits with
code 1 and issues no HTTP request. -/
theorem script_ill_formed_never_succeeds :
    parseExpr nameValueTokens = none ∧
    (∀ n e r g c t : String,
      create_payload n e r g c t = Except.error (PyErr.parseFailure "name")) ∧
    (∀ (env : Env) (now : String) (oracle : HttpRequest → HttpOutcome),
      (mainRun env now oracle).exitCode = 1 ∧ (mainRun env now oracle).requests = []) :=
  ⟨rfl, fun _ _ _ _ _ _ => rfl, fun _ _ _ => ⟨rfl, rfl⟩⟩

/-- Claim C10, counterexample.  The claim says an invocation with
`APPLICATION_EMAIL` set to the empty string takes the missing-variables
error path, with its diagnostic on the error stream; in fact the error
stream of that invocation carries only the module-level syntax-error
traceback and never that diagnostic, because CPython aborts before the
falsiness check at line 104 can run. -/
theorem empty_env_var_no_diagnostic :
    envGet envEmptyEmail "APPLICATION_EMAIL" = some "" ∧
    (mainRun envEmptyEmail "2024-04-04T00:00:00Z" nullOracle).stderr =
      [pyTraceback (PyErr.parseFailure "name")] ∧
    (mainRun envEmptyEmail "2024-04-04T00:00:00Z" nullOracle).stderr ≠
      missingDiag (missing_fields envEmptyEmail) :=
  ⟨rfl, rfl, by decide⟩

/-- Claim C10, amended.  The line-104 falsiness check does treat a
required variable set to the empty string exactly like an unset one -- the
field key lands in `missing_fields`, and the empty value is as falsy as an
absent one -- and every such invocation exits 1 with no network activity;
but the missing-variables error path itself is never taken and its
diagnostic never printed, because the module-level syntax error aborts the
interpreter first (see the counterexample). -/
theorem empty_env_var_falsy_like_unset (env : Env) (now : String)
    (oracle : HttpRequest → HttpOutcome) (k ek : String)
    (hk : (k, ek) ∈ requiredPairs) (h : envGet env ek = some "") :
    k ∈ missing_fields env ∧
    pyTruthyOptStr (envGet env ek) = pyTruthyOptStr none ∧
    (mainRun env now oracle).exitCode = 1 ∧
    (mainRun env now oracle).requests = [] := by
  have hmem : k ∈ missing_fields env := by
    apply List.mem_map.mpr
    refine ⟨(k, envGet env ek), ?_, rfl⟩
    apply List.mem_filter.mpr
    refine ⟨List.mem_map.mpr ⟨(k, ek), hk, rfl⟩, ?_⟩
    rw [h]
    rfl
  exact ⟨hmem, by rw [h]; rfl, rfl, rfl⟩

/-- Witness for the amended claim C10: `APPLICATION_EMAIL` bound to the
empty string satisfies both hypotheses, and the theorem applies to it. -/
theorem empty_env_var_falsy_like_unset_witness :
    (("email", "APPLICATION_EMAIL") ∈ requiredPairs ∧
      envGet envEmptyEmail "APPLICATION_EMAIL" = some "") ∧
    ("email" ∈ missing_fields envEmptyEmail ∧
     pyTruthyOptStr (envGet envEmptyEmail "APPLICATION_EMAIL") = pyTruthyOptStr none ∧
     (mainRun envEmptyEmail "2024-04-04T00:00:00Z" nullOracle).exitCode = 1 ∧
     (mainRun envEmptyEmail "2024-04-04T00:00:00Z" nullOracle).requests = []) :=
  ⟨⟨by decide, by decide⟩,
   empty_env_var_falsy_like_unset envEmptyEmail "2024-04-04T00:00:00Z" nullOracle
     "email" "APPLICATION_EMAIL" (by decide) (by decide)⟩
